import Mathlib

/-
Shallow embedding of `resources/lib/itemtypes/common.py` (class `ItemBase`),
the playstate/userdata reconciliation session of a media-library sync agent.

The class manages three sqlite connections (attribute -> database name):
  plexconn -> kodi_sql('plex'), kodiconn -> kodi_sql('video'),
  artconn  -> kodi_sql('texture').
External collaborators (plex_db.PlexDB, kodi_db.KodiVideoDB, plex_api.API,
utils) are modelled at their interface boundary; side-effecting writer and
logging calls are reified as values so that the emitted call sequence is the
object of proof.
-/

namespace PKC

/-- The three storage domains opened by the session: `utils.kodi_sql('plex')`,
`utils.kodi_sql('video')` and `utils.kodi_sql('texture')`, held in the
attributes `plexconn`, `kodiconn` and `artconn` respectively. -/
inductive ConnDomain
  | plex
  | video
  | texture
deriving DecidableEq

/-- A sqlite connection handle: an identity plus the database it was opened on. -/
structure Conn where
  id : Nat
  db_type : ConnDomain
deriving DecidableEq

/-- A cursor handle obtained from a connection (`conn.cursor()` in the source). -/
structure Cursor where
  conn : Conn
deriving DecidableEq

/-- Python `conn.cursor()`: derives a cursor from a connection. -/
def Conn.cursor (c : Conn) : Cursor :=
  { conn := c }

/-- Modelled from the spec: `plex_db.PlexDB` (outside this fragment) is the
identity store; at the boundary used here it is an object holding the cursor
it was constructed with (`PlexDB(self.plexcursor)` in `__enter__`). -/
structure PlexDB where
  cursor : Cursor
deriving DecidableEq

/-- Modelled from the spec: `kodi_db.KodiVideoDB` (outside this fragment) is
the local-state writer; at the boundary used here it holds the constructor
arguments of the call in `__enter__` (`texture_db=True, cursor=...,
artcursor=...`) plus the `artconn` attribute read by `__init__`, which
defaults to absent when not supplied. -/
structure KodiVideoDB where
  texture_db : Bool
  cursor : Cursor
  artcursor : Cursor
  artconn : Option Conn
deriving DecidableEq

/-- The attribute state of an `ItemBase` instance. -/
structure ItemBase where
  last_sync : Int
  plexconn : Option Conn
  plexcursor : Option Cursor
  kodiconn : Option Conn
  kodicursor : Option Cursor
  artconn : Option Conn
  artcursor : Option Cursor
  plexdb : Option PlexDB
  kodidb : Option KodiVideoDB
deriving DecidableEq

/-- Modelled from the spec: `utils.kodi_sql` opens a fresh connection to the
named database; freshness is modelled by an explicit id supply. -/
def utils.kodi_sql (db_type : ConnDomain) (fresh : Nat) : Conn :=
  { id := fresh, db_type := db_type }

/-- `ItemBase.__init__(self, last_sync, plexdb=None, kodidb=None)`: binds
cursors from the supplied instances when present, leaves every connection
attribute `None`, and stores the supplied instances themselves. -/
def ItemBase.init (last_sync : Int) (plexdb : Option PlexDB)
    (kodidb : Option KodiVideoDB) : ItemBase :=
  { last_sync := last_sync
    plexconn := none
    plexcursor := Option.map PlexDB.cursor plexdb
    kodiconn := none
    kodicursor := Option.map KodiVideoDB.cursor kodidb
    artconn := Option.bind kodidb KodiVideoDB.artconn
    artcursor := Option.map KodiVideoDB.artcursor kodidb
    plexdb := plexdb
    kodidb := kodidb }

/-- `ItemBase.__enter__`: opens three fresh connections (`plex`, `video`,
`texture`), derives their cursors, and rebinds `plexdb` and `kodidb` to
freshly constructed `PlexDB`/`KodiVideoDB` instances over those cursors.
The three `utils.kodi_sql` calls consume ids `fresh`, `fresh + 1`,
`fresh + 2`. -/
def ItemBase.enter (st : ItemBase) (fresh : Nat) : ItemBase :=
  let plexconn := utils.kodi_sql ConnDomain.plex fresh
  let plexcursor := plexconn.cursor
  let kodiconn := utils.kodi_sql ConnDomain.video (fresh + 1)
  let kodicursor := kodiconn.cursor
  let artconn := utils.kodi_sql ConnDomain.texture (fresh + 2)
  let artcursor := artconn.cursor
  { st with
    plexconn := some plexconn
    plexcursor := some plexcursor
    kodiconn := some kodiconn
    kodicursor := some kodicursor
    artconn := some artconn
    artcursor := some artcursor
    plexdb := some { cursor := plexcursor }
    kodidb := some { texture_db := true
                     cursor := kodicursor
                     artcursor := artcursor
                     artconn := none } }

/-- A connection-level operation performed during session exit. The
checkpoint is the source's `execute` of a PRAGMA wal_checkpoint TRUNCATE
statement. -/
inductive Op
  | commit (c : ConnDomain)
  | checkpoint (c : ConnDomain)
  | close (c : ConnDomain)
deriving DecidableEq

/-- Phase of an exit operation: commits happen in phase 0, checkpoints in
phase 1, closes in phase 2. -/
def Op.phase : Op → Nat
  | Op.commit _ => 0
  | Op.checkpoint _ => 1
  | Op.close _ => 2

/-- Errors of the embedded Python fragment: `TypeError` from `view_count += 1`,
a storage error raised by a connection operation during exit, and a storage
error raised by a local-writer mutation call. -/
inductive PyErr
  | typeError
  | opError (op : Op)
  | writerError
deriving DecidableEq

/-- Runs a straight-line sequence of connection operations under a fault
model: each statement is attempted in order and the first operation whose
fault flag is set raises, abandoning the rest (Python has no try/finally
here). Returns the attempted operations and the raising one, if any. -/
def runOps (fails : Op → Bool) : List Op → List Op × Option Op
  | [] => ([], none)
  | op :: rest =>
      if fails op then ([op], some op)
      else ((op :: (runOps fails rest).1, (runOps fails rest).2))

/-- The operation sequence of `ItemBase.commit`: commit `plexconn`, `artconn`,
`kodiconn`, then wal-checkpoint each of the three in the same order. -/
def ItemBase.commitOps : List Op :=
  [Op.commit ConnDomain.plex, Op.commit ConnDomain.texture,
   Op.commit ConnDomain.video,
   Op.checkpoint ConnDomain.plex, Op.checkpoint ConnDomain.texture,
   Op.checkpoint ConnDomain.video]

/-- The operation sequence of `ItemBase.__exit__`: `self.commit()`, then
`plexconn.close()`, `kodiconn.close()`, `artconn.close()`. -/
def ItemBase.exitOps : List Op :=
  ItemBase.commitOps ++
    [Op.close ConnDomain.plex, Op.close ConnDomain.video,
     Op.close ConnDomain.texture]

/-- Executes `ItemBase.__exit__` under a fault model. The second component is
the outcome: when an operation raises, the error propagates out of
`__exit__`; otherwise `__exit__` executes `return self`, and the truth value
of the returned object (an object is truthy in Python) is recorded. -/
def ItemBase.exitRun (fails : Op → Bool) : List Op × Except PyErr Bool :=
  let r := runOps fails ItemBase.exitOps
  (r.1,
    match r.2 with
    | some op => Except.error (PyErr.opError op)
    | none => Except.ok true)

/-- Python `with`-statement semantics (PEP 343) for a body outcome and an
`__exit__` outcome: when the body raises and `__exit__` returns normally, the
body's exception propagates only if the returned value is falsy; a truthy
return value suppresses it. An exception raised by `__exit__` itself always
propagates (replacing the body's, if any). -/
def pyWith (body : Except PyErr Unit) (exitResult : Except PyErr Bool) :
    Except PyErr Unit :=
  match body with
  | Except.ok _ =>
      match exitResult with
      | Except.ok _ => Except.ok ()
      | Except.error e => Except.error e
  | Except.error e =>
      match exitResult with
      | Except.ok b => if b then Except.ok () else Except.error e
      | Except.error e2 => Except.error e2

/-- A Python view-count value as it arrives over the websocket: an integer,
`None` (absent), or a non-numeric value (e.g. a string). -/
inductive ViewCount
  | num (n : Int)
  | absent
  | invalid
deriving DecidableEq

/-- A timestamp already in the local (Kodi) store's convention, as produced by
the remote-epoch conversion. -/
structure LocalTimestamp where
  val : Int
deriving DecidableEq

/-- Modelled from the spec: `utils.unix_date_to_kodi` (outside this fragment)
converts a remote epoch timestamp into the local store's convention; the
conversion is lossless for whole-second granularity, modelled by the
type-tagging wrapper. -/
def utils.unix_date_to_kodi (lastViewedAt : Int) : LocalTimestamp :=
  { val := lastViewedAt }

/-- Python `view_count += 1`: succeeds on an integer and raises `TypeError`
on `None` or a non-numeric value. -/
def pyIncrement : ViewCount → Except PyErr ViewCount
  | ViewCount.num n => Except.ok (ViewCount.num (n + 1))
  | ViewCount.absent => Except.error PyErr.typeError
  | ViewCount.invalid => Except.error PyErr.typeError

/-- The local identity record returned by `plexdb.item_by_id`, with the three
fields this fragment reads. -/
structure DbItem where
  kodi_fileid : Nat
  kodi_id : Nat
  kodi_type : String
deriving DecidableEq

/-- Modelled from the spec: the user-data bundle `api.userdata()` extracts
from the remote item (resume, runtime, play count, last-played date already
in local convention, user rating). -/
structure Userdata where
  Resume : Int
  Runtime : Int
  PlayCount : ViewCount
  LastPlayedDate : LocalTimestamp
  UserRating : Int
deriving DecidableEq

/-- The remote item's XML element at the boundary used here: `api.plex_id()`,
the raw `attrib` payload logged on failure, and the `api.userdata()` bundle. -/
structure XmlElement where
  plex_id : Nat
  attrib : String
  userdata : Userdata
deriving DecidableEq

/-- A local-writer mutation call on `self.kodidb`, reified with its argument
list. -/
inductive WriterCall
  | set_resume (kodi_fileid : Nat) (resume : Int) (runtime : Int)
      (play_count : ViewCount) (last_played : LocalTimestamp)
      (plex_type : String)
  | update_userrating (kodi_id : Nat) (kodi_type : String) (userrating : Int)
deriving DecidableEq

/-- A logging call; `LOG.error(msg, payload)` in the source. -/
inductive LogEvent
  | error (msg : String) (payload : String)
deriving DecidableEq

/-- `ItemBase.update_userdata(self, xml_element, plex_type)`: resolves the
local record via `plexdb.item_by_id(api.plex_id(), plex_type)`; when absent,
logs at error severity with the element's `attrib` and returns; when present,
issues `kodidb.set_resume(...)` then `kodidb.update_userrating(...)`.
Returns the writer calls issued and the log events emitted. -/
def ItemBase.update_userdata (item_by_id : Nat → String → Option DbItem)
    (xml_element : XmlElement) (plex_type : String) :
    List WriterCall × List LogEvent :=
  match item_by_id xml_element.plex_id plex_type with
  | none => ([], [LogEvent.error "Item not yet synced: %s" xml_element.attrib])
  | some db_item =>
      ([WriterCall.set_resume db_item.kodi_fileid xml_element.userdata.Resume
          xml_element.userdata.Runtime xml_element.userdata.PlayCount
          xml_element.userdata.LastPlayedDate plex_type,
        WriterCall.update_userrating db_item.kodi_id db_item.kodi_type
          xml_element.userdata.UserRating],
       [])

/-- Runs a sequence of local-writer calls under a fault model: calls are
attempted in order and the first faulting call raises, abandoning the rest
(the source wraps none of them in try/except). -/
def runWriterCalls (fails : WriterCall → Option PyErr) :
    List WriterCall → List WriterCall × Option PyErr
  | [] => ([], none)
  | c :: rest =>
      match fails c with
      | some e => ([c], some e)
      | none => ((c :: (runWriterCalls fails rest).1,
                  (runWriterCalls fails rest).2))

/-- `ItemBase.update_userdata` executed under a writer fault model: the calls
it issues are attempted in order; an error raised by a writer call propagates
out of the method uncaught. -/
def ItemBase.update_userdata_run (fails : WriterCall → Option PyErr)
    (item_by_id : Nat → String → Option DbItem) (xml_element : XmlElement)
    (plex_type : String) : List WriterCall × List LogEvent × Option PyErr :=
  let plan := ItemBase.update_userdata item_by_id xml_element plex_type
  let r := runWriterCalls fails plan.1
  (r.1, plan.2, r.2)

/-- The argument list of the single `kodidb.set_resume` call made by
`ItemBase.update_playstate`. -/
structure SetResumeArgs where
  kodi_fileid : Nat
  resume : Int
  duration : Int
  view_count : ViewCount
  last_viewed : LocalTimestamp
  plex_type : String
deriving DecidableEq

/-- `ItemBase.update_playstate(self, mark_played, view_count, resume,
duration, kodi_fileid, lastViewedAt, plex_type)`: when `mark_played` is true,
`view_count += 1` inside a try/except that catches `TypeError` by setting
`view_count = 1`, then `resume = 0`; otherwise the fields pass through.
Finally calls `kodidb.set_resume` with `utils.unix_date_to_kodi(lastViewedAt)`
as the last-played argument. -/
def ItemBase.update_playstate (mark_played : Bool) (view_count : ViewCount)
    (resume : Int) (duration : Int) (kodi_fileid : Nat) (lastViewedAt : Int)
    (plex_type : String) : Except PyErr SetResumeArgs :=
  let step : Except PyErr (ViewCount × Int) :=
    if mark_played then
      match pyIncrement view_count with
      | Except.ok v => Except.ok (v, 0)
      | Except.error PyErr.typeError => Except.ok (ViewCount.num 1, 0)
      | Except.error e => Except.error e
    else
      Except.ok (view_count, resume)
  Except.map
    (fun p =>
      { kodi_fileid := kodi_fileid
        resume := p.2
        duration := duration
        view_count := p.1
        last_viewed := utils.unix_date_to_kodi lastViewedAt
        plex_type := plex_type })
    step

/-- The attempted operations of a faulting straight-line run form a prefix of
the full sequence. -/
theorem runOps_prefix_of (fails : Op → Bool) (l : List Op) :
    ∃ t, (runOps fails l).1 ++ t = l := by
  induction l with
  | nil => exact ⟨[], rfl⟩
  | cons op rest ih =>
      by_cases h : fails op = true
      · exact ⟨rest, by simp [runOps, h]⟩
      · obtain ⟨t, ht⟩ := ih
        exact ⟨t, by simp [runOps, h, ht]⟩

/-- C1, as stated, is false: with a fault model in which only the first
connection's commit (`plexconn.commit()`) raises, `ItemBase.__exit__` attempts
only that one operation — the commits, checkpoints and closes of the other
two connections are never attempted, and the closes of all three are skipped.
There is no try/finally in `__exit__` or `commit`. -/
theorem exit_abandons_cleanup_after_first_commit_failure :
    (ItemBase.exitRun (fun op => decide (op = Op.commit ConnDomain.plex))).1 =
      [Op.commit ConnDomain.plex] ∧
    Op.commit ConnDomain.texture ∉
      (ItemBase.exitRun (fun op => decide (op = Op.commit ConnDomain.plex))).1 ∧
    Op.close ConnDomain.video ∉
      (ItemBase.exitRun (fun op => decide (op = Op.commit ConnDomain.plex))).1 ∧
    Op.close ConnDomain.texture ∉
      (ItemBase.exitRun (fun op => decide (op = Op.commit ConnDomain.plex))).1 ∧
    (ItemBase.exitRun (fun op => decide (op = Op.commit ConnDomain.plex))).2 =
      Except.error (PyErr.opError (Op.commit ConnDomain.plex)) :=
  ⟨rfl, by decide, by decide, by decide, rfl⟩

/-- C1 amended: scope exit performs commit, checkpoint and close on all three
connections only on a fault-free exit; under any fault model the attempted
operations are a prefix of the full sequence (everything after the first
raising operation is abandoned), and the first error propagates out of
`__exit__`, as shown concretely for a fault in the first close. -/
theorem exit_cleanup_runs_fully_only_without_faults :
    (ItemBase.exitRun (fun _ => false)).1 = ItemBase.exitOps ∧
    (ItemBase.exitRun (fun _ => false)).2 = Except.ok true ∧
    (∀ fails : Op → Bool,
      ∃ t, (ItemBase.exitRun fails).1 ++ t = ItemBase.exitOps) ∧
    (ItemBase.exitRun (fun op => decide (op = Op.close ConnDomain.plex))).1 =
      ItemBase.commitOps ++ [Op.close ConnDomain.plex] ∧
    (ItemBase.exitRun (fun op => decide (op = Op.close ConnDomain.plex))).2 =
      Except.error (PyErr.opError (Op.close ConnDomain.plex)) := by
  refine ⟨rfl, rfl, ?_, rfl, rfl⟩
  intro fails
  exact runOps_prefix_of fails ItemBase.exitOps

/-- C2: for every playstate event with `mark_played` true, the resume value
passed to `set_resume` is exactly 0 regardless of the resume value carried by
the event, and the view count passed is exactly the prior count plus one when
a prior count is known, and exactly 1 when no prior count is known. -/
theorem update_playstate_mark_played_increments_and_resets
    (n : Int) (resume : Int) (duration : Int) (kodi_fileid : Nat)
    (lastViewedAt : Int) (plex_type : String) :
    ItemBase.update_playstate true (ViewCount.num n) resume duration
        kodi_fileid lastViewedAt plex_type =
      Except.ok
        { kodi_fileid := kodi_fileid
          resume := 0
          duration := duration
          view_count := ViewCount.num (n + 1)
          last_viewed := utils.unix_date_to_kodi lastViewedAt
          plex_type := plex_type } ∧
    ItemBase.update_playstate true ViewCount.absent resume duration
        kodi_fileid lastViewedAt plex_type =
      Except.ok
        { kodi_fileid := kodi_fileid
          resume := 0
          duration := duration
          view_count := ViewCount.num 1
          last_viewed := utils.unix_date_to_kodi lastViewedAt
          plex_type := plex_type } :=
  ⟨rfl, rfl⟩

/-- C3: when the identity lookup returns no local record,
`ItemBase.update_userdata` performs zero writer mutations (under any writer
fault model, hence also raising nothing), emits a single error-severity log
carrying the remote element's `attrib` payload, and returns. -/
theorem update_userdata_skips_and_logs_when_not_synced
    (item_by_id : Nat → String → Option DbItem) (xml_element : XmlElement)
    (plex_type : String) (fails : WriterCall → Option PyErr)
    (h : item_by_id xml_element.plex_id plex_type = none) :
    ItemBase.update_userdata_run fails item_by_id xml_element plex_type =
      ([], [LogEvent.error "Item not yet synced: %s" xml_element.attrib],
       none) := by
  simp [ItemBase.update_userdata_run, ItemBase.update_userdata, h,
    runWriterCalls]

/-- Witness for C3 at a concrete lookup, element and fault model. -/
theorem update_userdata_skips_and_logs_when_not_synced_witness :
    ItemBase.update_userdata_run (fun _ => some PyErr.writerError)
        (fun _ _ => none)
        { plex_id := 123
          attrib := "plex_id 123 movie"
          userdata :=
            { Resume := 300
              Runtime := 7200
              PlayCount := ViewCount.num 2
              LastPlayedDate := { val := 1000 }
              UserRating := 8 } }
        "movie" =
      ([], [LogEvent.error "Item not yet synced: %s" "plex_id 123 movie"],
       none) :=
  update_userdata_skips_and_logs_when_not_synced _ _ _ _ rfl

/-- C4: when the identity lookup succeeds, `ItemBase.update_userdata` issues
exactly one `set_resume` call followed by exactly one `update_userrating`
call, with the resolved record's `kodi_fileid` and `kodi_id`/`kodi_type`; and
for every invocation whatsoever the number of writer calls issued is exactly
zero or exactly two, never one. -/
theorem update_userdata_two_calls_when_found
    (item_by_id : Nat → String → Option DbItem) (xml_element : XmlElement)
    (plex_type : String) (db_item : DbItem)
    (lk : Nat → String → Option DbItem) (xe : XmlElement) (pt : String)
    (h : item_by_id xml_element.plex_id plex_type = some db_item) :
    (ItemBase.update_userdata item_by_id xml_element plex_type).1 =
      [WriterCall.set_resume db_item.kodi_fileid xml_element.userdata.Resume
         xml_element.userdata.Runtime xml_element.userdata.PlayCount
         xml_element.userdata.LastPlayedDate plex_type,
       WriterCall.update_userrating db_item.kodi_id db_item.kodi_type
         xml_element.userdata.UserRating] ∧
    ((ItemBase.update_userdata lk xe pt).1.length = 0 ∨
     (ItemBase.update_userdata lk xe pt).1.length = 2) := by
  constructor
  · simp [ItemBase.update_userdata, h]
  · cases hl : lk xe.plex_id pt with
    | none => exact Or.inl (by simp [ItemBase.update_userdata, hl])
    | some d => exact Or.inr (by simp [ItemBase.update_userdata, hl])

/-- Witness for C4 at a concrete lookup, element and resolved record. -/
theorem update_userdata_two_calls_when_found_witness :
    (ItemBase.update_userdata
        (fun _ _ => some { kodi_fileid := 55, kodi_id := 77,
                           kodi_type := "movie" })
        { plex_id := 123
          attrib := "plex_id 123 movie"
          userdata :=
            { Resume := 300
              Runtime := 7200
              PlayCount := ViewCount.num 2
              LastPlayedDate := { val := 1000 }
              UserRating := 8 } }
        "movie").1 =
      [WriterCall.set_resume 55 300 7200 (ViewCount.num 2) { val := 1000 }
         "movie",
       WriterCall.update_userrating 77 "movie" 8] ∧
    ((ItemBase.update_userdata
        (fun _ _ => some { kodi_fileid := 55, kodi_id := 77,
                           kodi_type := "movie" })
        { plex_id := 123
          attrib := "plex_id 123 movie"
          userdata :=
            { Resume := 300
              Runtime := 7200
              PlayCount := ViewCount.num 2
              LastPlayedDate := { val := 1000 }
              UserRating := 8 } }
        "movie").1.length = 0 ∨
     (ItemBase.update_userdata
        (fun _ _ => some { kodi_fileid := 55, kodi_id := 77,
                           kodi_type := "movie" })
        { plex_id := 123
          attrib := "plex_id 123 movie"
          userdata :=
            { Resume := 300
              Runtime := 7200
              PlayCount := ViewCount.num 2
              LastPlayedDate := { val := 1000 }
              UserRating := 8 } }
        "movie").1.length = 2) :=
  update_userdata_two_calls_when_found _ _ _
    { kodi_fileid := 55, kodi_id := 77, kodi_type := "movie" } _ _ _ rfl

/-- C5, evaluated at the failing input: a storage error raised by the
`set_resume` writer call does propagate out of `update_userdata` uncaught
(first conjunct), but because `__exit__` ends in `return self` — a truthy
value — the Python `with` statement then suppresses that error instead of
propagating it to the session caller (second conjunct): the whole
`with ItemBase(...)` block completes as if nothing failed. -/
theorem session_scope_suppresses_writer_error :
    (ItemBase.update_userdata_run
        (fun c =>
          match c with
          | WriterCall.set_resume _ _ _ _ _ _ => some PyErr.writerError
          | WriterCall.update_userrating _ _ _ => none)
        (fun _ _ => some { kodi_fileid := 55, kodi_id := 77,
                           kodi_type := "movie" })
        { plex_id := 123
          attrib := "plex_id 123 movie"
          userdata :=
            { Resume := 300
              Runtime := 7200
              PlayCount := ViewCount.num 2
              LastPlayedDate := { val := 1000 }
              UserRating := 8 } }
        "movie").2.2 = some PyErr.writerError ∧
    pyWith (Except.error PyErr.writerError)
        (ItemBase.exitRun (fun _ => false)).2 = Except.ok () := by
  constructor
  · rfl
  · rfl

/-- C6: when `mark_played` is true and the prior view count is present but
not a valid count, the `TypeError` from `view_count += 1` is caught and the
count falls back to exactly 1; the call never raises (the result is `ok`). -/
theorem update_playstate_invalid_prior_count_falls_back
    (resume : Int) (duration : Int) (kodi_fileid : Nat) (lastViewedAt : Int)
    (plex_type : String) :
    ItemBase.update_playstate true ViewCount.invalid resume duration
        kodi_fileid lastViewedAt plex_type =
      Except.ok
        { kodi_fileid := kodi_fileid
          resume := 0
          duration := duration
          view_count := ViewCount.num 1
          last_viewed := utils.unix_date_to_kodi lastViewedAt
          plex_type := plex_type } :=
  rfl

/-- C7: when `mark_played` is false, resume, duration and view count are
passed to `set_resume` exactly as received, while the last-played timestamp
is first converted by `utils.unix_date_to_kodi` from the remote epoch
convention to the local store's convention. -/
theorem update_playstate_passthrough_when_not_marked_played
    (view_count : ViewCount) (resume : Int) (duration : Int)
    (kodi_fileid : Nat) (lastViewedAt : Int) (plex_type : String) :
    ItemBase.update_playstate false view_count resume duration kodi_fileid
        lastViewedAt plex_type =
      Except.ok
        { kodi_fileid := kodi_fileid
          resume := resume
          duration := duration
          view_count := view_count
          last_viewed := utils.unix_date_to_kodi lastViewedAt
          plex_type := plex_type } :=
  rfl

/-- C8: session exit first commits every connection, then checkpoints each,
and only then closes every connection: the exit sequence contains commit,
checkpoint and close for each of the three domains, every commit precedes
every checkpoint which precedes every close (phases are monotone along the
sequence), and the phase order also holds along the attempted trace of every
faulting run, since that trace is a prefix of the full sequence. -/
theorem exit_commits_then_checkpoints_then_closes :
    (Op.commit ConnDomain.plex ∈ ItemBase.exitOps ∧
     Op.commit ConnDomain.video ∈ ItemBase.exitOps ∧
     Op.commit ConnDomain.texture ∈ ItemBase.exitOps ∧
     Op.checkpoint ConnDomain.plex ∈ ItemBase.exitOps ∧
     Op.checkpoint ConnDomain.video ∈ ItemBase.exitOps ∧
     Op.checkpoint ConnDomain.texture ∈ ItemBase.exitOps ∧
     Op.close ConnDomain.plex ∈ ItemBase.exitOps ∧
     Op.close ConnDomain.video ∈ ItemBase.exitOps ∧
     Op.close ConnDomain.texture ∈ ItemBase.exitOps) ∧
    List.Pairwise (fun a b => Op.phase a ≤ Op.phase b) ItemBase.exitOps ∧
    ∀ fails : Op → Bool,
      List.Pairwise (fun a b => Op.phase a ≤ Op.phase b)
        (ItemBase.exitRun fails).1 := by
  refine ⟨by decide, by decide, ?_⟩
  intro fails
  obtain ⟨t, ht⟩ := runOps_prefix_of fails ItemBase.exitOps
  have h0 : (ItemBase.exitRun fails).1 = (runOps fails ItemBase.exitOps).1 :=
    rfl
  have hp : List.Pairwise (fun a b => Op.phase a ≤ Op.phase b)
      ((runOps fails ItemBase.exitOps).1 ++ t) := by
    rw [ht]
    decide
  rw [h0]
  exact (List.pairwise_append.mp hp).1

/-- C9: constructing the session with externally supplied identity-store and
writer instances binds the cursors and the component references to those
instances, and opens no new connection: the connection attributes stay
`None` (the art connection is taken from the supplied writer, not opened). -/
theorem init_binds_external_instances_without_opening
    (last_sync : Int) (p : PlexDB) (k : KodiVideoDB) :
    ItemBase.init last_sync (some p) (some k) =
      { last_sync := last_sync
        plexconn := none
        plexcursor := some p.cursor
        kodiconn := none
        kodicursor := some k.cursor
        artconn := k.artconn
        artcursor := some k.artcursor
        plexdb := some p
        kodidb := some k } :=
  rfl

/-- C10: entering the session scope unconditionally opens three fresh
connections (plex, video, texture) and rebinds `plexdb` and `kodidb` to new
instances built on their cursors, so the result is identical whether or not
identity/writer instances were supplied at construction — external binding
is discarded by `__enter__`. -/
theorem enter_opens_fresh_and_discards_external_binding
    (last_sync : Int) (p : Option PlexDB) (k : Option KodiVideoDB)
    (fresh : Nat) :
    ItemBase.enter (ItemBase.init last_sync p k) fresh =
      ItemBase.enter (ItemBase.init last_sync none none) fresh ∧
    (ItemBase.enter (ItemBase.init last_sync p k) fresh).plexconn =
      some (utils.kodi_sql ConnDomain.plex fresh) ∧
    (ItemBase.enter (ItemBase.init last_sync p k) fresh).kodiconn =
      some (utils.kodi_sql ConnDomain.video (fresh + 1)) ∧
    (ItemBase.enter (ItemBase.init last_sync p k) fresh).artconn =
      some (utils.kodi_sql ConnDomain.texture (fresh + 2)) ∧
    (ItemBase.enter (ItemBase.init last_sync p k) fresh).plexdb =
      some { cursor := (utils.kodi_sql ConnDomain.plex fresh).cursor } ∧
    (ItemBase.enter (ItemBase.init last_sync p k) fresh).kodidb =
      some { texture_db := true
             cursor := (utils.kodi_sql ConnDomain.video (fresh + 1)).cursor
             artcursor :=
               (utils.kodi_sql ConnDomain.texture (fresh + 2)).cursor
             artconn := none } :=
  ⟨rfl, rfl, rfl, rfl, rfl, rfl⟩

end PKC
